import Mathlib

/-!
Shallow embedding of `src/solo.c` (the `solo` command-wrapper singleton) and
proofs about the claims of its specification.

The program is modelled as pure Lean functions over an explicit environment of
operating-system outcomes (`stat`, `creat`, `lockf`, `fork`, `execvp`,
`waitpid` results), producing a trace of observable events (file creation,
lock attempts, diagnostics, unlink, close, exec) together with an exit code.
Cross-process lock semantics are modelled separately with an explicit
inode-level lock state.
-/

namespace Solo

/-- `PATH_MAX` from `<linux/limits.h>`. -/
def PATH_MAX : Nat := 4096

/-- `EACCES` on Linux. -/
def EACCES : Nat := 13

/-- `EAGAIN` on Linux. -/
def EAGAIN : Nat := 11

/-- `SIGHUP` on Linux. -/
def SIGHUP : Nat := 1

/-- `SIGINT` on Linux. -/
def SIGINT : Nat := 2

/-- `SIGTERM` on Linux. -/
def SIGTERM : Nat := 15

/-- Outcome of a `stat(path, &s)` call: an OS error (`errno`), or success
together with whether `S_ISDIR(s.st_mode)` holds. -/
inductive StatRes where
  | err (e : Nat)
  | ok (isDir : Bool)
deriving DecidableEq, Repr

/-- The candidate lock directories probed by `get_lockdir`
(`static const char *paths[] = {"/var/lock", "/tmp"}`). -/
def lockdirPaths : List String := ["/var/lock", "/tmp"]

/-- The loop body of `get_lockdir` (src/solo.c lines 56-68): for each
candidate, `stat` it; on a `stat` error print a diagnostic and return `NULL`
(modelled `none`); if the candidate is a directory return it; otherwise try
the next candidate. -/
def get_lockdirLoop (stat : String → StatRes) : List String → Option String
  | [] => some "."
  | p :: rest =>
    match stat p with
    | .err _ => none
    | .ok true => some p
    | .ok false => get_lockdirLoop stat rest

/-- `get_lockdir` (src/solo.c lines 53-72): probe `/var/lock` then `/tmp`;
fall back to `"."` if the loop completes without finding a directory. -/
def get_lockdir (stat : String → StatRes) : Option String :=
  get_lockdirLoop stat lockdirPaths

/-- GNU `basename` (the `<string.h>` version selected by `_GNU_SOURCE`):
returns the suffix of the path after the final `/`; in particular it returns
the empty string for paths ending in `/`. -/
def gnuBasename (s : String) : String :=
  String.mk ((s.data.reverse.takeWhile (fun c => c != '/')).reverse)

/-- Byte-truncation performed by `snprintf` when the formatted string does not
fit: keep the first `n` characters (the source strings are ASCII, so
characters coincide with bytes). -/
def cTruncate (n : Nat) (s : String) : String :=
  String.mk (s.data.take n)

/-- Result of the argument-parsing / lock-identity phase of `main`
(src/solo.c lines 113-157). -/
inductive IdentityResult where
  | usage
      -- `argc < 2`, or the `-l`/`--lockfile` flag without a following argument
  | resolveFail
      -- `get_lockdir` returned `NULL`
  | invalidName (arg : String)
      -- the basename of the command is empty
  | ok (lockfile : String) (cmdStart : Nat) (tooLong : Bool)
      -- identity resolved; `tooLong` records whether the snprintf result
      -- exceeded `PATH_MAX` (the source prints a diagnostic but continues)
deriving DecidableEq, Repr

/-- The lock-identity phase of `main` (src/solo.c lines 113-157), as a
function of the `stat` outcomes and the argument vector (`argv.head` is the
program name itself). -/
def resolveIdentity (stat : String → StatRes) (argv : List String) :
    IdentityResult :=
  if argv.length < 2 then .usage
  else if argv.getD 1 "" = "-l" ∨ argv.getD 1 "" = "--lockfile" then
    if argv.length < 3 then .usage
    else .ok (argv.getD 2 "") 3 false
  else
    match get_lockdir stat with
    | none => .resolveFail
    | some lockdir =>
      let program_name := gnuBasename (argv.getD 1 "")
      if program_name = "" then .invalidName (argv.getD 1 "")
      else
        let filepath := lockdir ++ "/solo-lock-" ++ program_name
        if filepath.length ≥ PATH_MAX then
          .ok (cTruncate (PATH_MAX - 1) filepath) 1 true
        else
          .ok filepath 1 false

/-- Observable events emitted by a run of the program.  Diagnostics are
distinguished between plain `fprintf(stderr, ...)` messages (`msg`) and
`perror(context)` output, which renders the current `errno` (`perrorMsg`). -/
inductive Event where
  | msg (s : String)
  | perrorMsg (context : String) (e : Nat)
  | creatEv (path : String)
  | lockfEv (fd : Int)
  | unlink (path : String)
  | close (fd : Int)
  | execEv (prog : Option String) (args : List String)
deriving DecidableEq, Repr

/-- Outcome of `creat(lockfile, S_IWUSR)`. -/
inductive CreatRes where
  | err (e : Nat)
  | ok (fd : Int)
deriving DecidableEq, Repr

/-- Outcome of `lockf(fd, F_TLOCK, 0)`. -/
inductive LockfRes where
  | err (e : Nat)
  | ok
deriving DecidableEq, Repr

/-- Outcome of `fork()`, seen from the process whose run we are modelling:
`child` means this run continues as the child (`pid == 0`), `parent` that it
continues as the parent (`pid > 0`), `err` that `fork` failed. -/
inductive ForkRes where
  | err (e : Nat)
  | child
  | parent
deriving DecidableEq, Repr

/-- Outcome of `execvp`: `ok` means the process image was replaced (the call
never returns); `err` means it returned `-1` with the given `errno`. -/
inductive ExecRes where
  | err (e : Nat)
  | ok
deriving DecidableEq, Repr

/-- Outcome of `waitpid(pid, NULL, 0)`: success (with the child's exit
status, which the source discards by passing `NULL`), or an error. -/
inductive WaitRes where
  | err (e : Nat)
  | ok (status : Nat)
deriving DecidableEq, Repr

/-- The environment of operating-system outcomes a run of `main` consumes,
together with the argument vector. -/
structure Env where
  argv : List String
  statRes : String → StatRes
  sigactionRes : Nat → Option Nat   -- per signal number: `none` = success
  creatRes : CreatRes
  lockfRes : LockfRes
  forkRes : ForkRes
  execRes : ExecRes
  waitRes : WaitRes

/-- The result of one process's run: its event trace and its exit code
(`none` when the process image was replaced by `execvp` and the run never
returns). -/
structure RunResult where
  events : List Event
  exit : Option Nat
deriving DecidableEq, Repr

/-- The event trace of `graceful_exit` (src/solo.c lines 76-90): unlink the
lockfile if one was recorded, then close the lock file descriptor if one is
open. -/
def gracefulExitEvents (lf : Option String) (fd : Option Int) : List Event :=
  (match lf with
   | some p => [Event.unlink p]
   | none => []) ++
  (match fd with
   | some f => [Event.close f]
   | none => [])

/-- `graceful_exit(status)` (src/solo.c lines 76-90) with the global state
`lockfile`/`lockfile_fd` passed explicitly. -/
def graceful_exit (lf : Option String) (fd : Option Int) (status : Nat) :
    RunResult :=
  ⟨gracefulExitEvents lf fd, some status⟩

/-- The signals for which `install_signal_handlers` installs `signal_handler`
(src/solo.c line 100). -/
def handledSignals : List Nat := [SIGHUP, SIGINT, SIGTERM]

/-- `signal_handler` (src/solo.c lines 92-94): on delivery of a handled
signal, run `graceful_exit(1)` on the current lock state. -/
def signal_handler (lf : Option String) (fd : Option Int) : RunResult :=
  graceful_exit lf fd 1

/-- The loop of `install_signal_handlers` (src/solo.c lines 101-107):
`sigaction` for each signal in turn; the first failure returns its `errno`. -/
def installLoop (sig : Nat → Option Nat) : List Nat → Option Nat
  | [] => none
  | s :: rest =>
    match sig s with
    | some e => some e
    | none => installLoop sig rest

/-- `install_signal_handlers` (src/solo.c lines 96-110): `none` on success,
`some errno` on the first `sigaction` failure. -/
def install_signal_handlers (sig : Nat → Option Nat) : Option Nat :=
  installLoop sig handledSignals

/-- The message printed when the derived lock path does not fit `PATH_MAX`
(src/solo.c lines 153-154). -/
def tooLongMsg : String :=
  "Command or lockdir too large; this is likely a bug. Please report it!"

/-- The contention message (src/solo.c line 177). -/
def contentionMsg : String := "Another instance is already running"

/-- `main` (src/solo.c lines 112-210) as a function of the environment,
returning the run's event trace and exit code.  The phase up to line 157 is
`resolveIdentity`; afterwards: install signal handlers, `creat` the lockfile,
`lockf` it, `fork`, and in the child `close`+`execvp` while the parent
`waitpid`s; every post-creat exit goes through `graceful_exit`. -/
def soloMain (env : Env) : RunResult :=
  match resolveIdentity env.statRes env.argv with
  | .usage => ⟨[], some 1⟩
  | .resolveFail =>
      ⟨[Event.msg "Cannot find a temporary lock directory!"], some 1⟩
  | .invalidName arg =>
      ⟨[Event.msg ("Invalid program name " ++ arg)], some 1⟩
  | .ok lf cmdStart tooLong =>
    let es₀ : List Event := if tooLong then [Event.msg tooLongMsg] else []
    match install_signal_handlers env.sigactionRes with
    | some e => ⟨es₀ ++ [Event.perrorMsg "sigaction" e], some e⟩
    | none =>
      match env.creatRes with
      | .err e =>
          ⟨es₀ ++ [Event.creatEv lf,
                   Event.perrorMsg "lock file creation failed" e] ++
             gracefulExitEvents (some lf) none, some e⟩
      | .ok fd =>
        let es₁ := es₀ ++ [Event.creatEv lf]
        match env.lockfRes with
        | .err e =>
            let diag : Event :=
              if e = EACCES ∨ e = EAGAIN then Event.msg contentionMsg
              else Event.perrorMsg "cannot take lock" e
            ⟨es₁ ++ [Event.lockfEv fd, diag] ++
               gracefulExitEvents (some lf) (some fd), some e⟩
        | .ok =>
          let es₂ := es₁ ++ [Event.lockfEv fd]
          match env.forkRes with
          | .err e =>
              ⟨es₂ ++ [Event.perrorMsg "fork" e] ++
                 gracefulExitEvents (some lf) (some fd), some e⟩
          | .child =>
            let prog := env.argv.get? cmdStart
            let args := env.argv.drop cmdStart
            match env.execRes with
            | .ok => ⟨es₂ ++ [Event.close fd, Event.execEv prog args], none⟩
            | .err e =>
                ⟨es₂ ++ [Event.close fd, Event.execEv prog args,
                         Event.perrorMsg "failed to exec program" e], some e⟩
          | .parent =>
            match env.waitRes with
            | .err e =>
                ⟨es₂ ++ [Event.perrorMsg "waitpid" e] ++
                   gracefulExitEvents (some lf) (some fd), some e⟩
            | .ok _ =>
                ⟨es₂ ++ gracefulExitEvents (some lf) (some fd), some 0⟩

/-! ### Cross-process lock semantics

POSIX semantics of the system calls the lock path uses, for a single lock
identity path: `creat` binds the path to its current inode (creating a fresh
inode when the path is unbound), `lockf(F_TLOCK)` is an atomic test-and-set
on the inode's record lock, `unlink` removes only the path-to-inode binding
(the inode and any lock on it survive while a descriptor is open), and a
process that holds no lock on an inode does not affect the holder by closing
its own descriptor. -/

/-- Cross-process state for one lock identity path: the next fresh inode
number, the inode currently bound to the path (if any), and which process
holds the `lockf` record lock on each inode. -/
structure LockSys where
  nextIno : Nat
  pathIno : Option Nat
  holders : List (Nat × Nat)   -- (inode, holding pid)
deriving DecidableEq, Repr

/-- Outcome of one invocation's lock phase. -/
inductive InvOutcome where
  | acquired
  | contended
deriving DecidableEq, Repr

/-- One invocation's lock phase, exactly as `main` performs it (src/solo.c
lines 168-183): `creat(lockfile, S_IWUSR)` (bind the path, reusing the bound
inode or creating a fresh one), then `lockf(fd, F_TLOCK, 0)`; on contention
(`EACCES`/`EAGAIN`) print the contention message and run
`graceful_exit(errno)`, whose release path `unlink`s the lock identity path
and closes the descriptor (src/solo.c lines 76-90). -/
def invoke (s : LockSys) (pid : Nat) : LockSys × InvOutcome :=
  let (ino, s₁) :=
    match s.pathIno with
    | some i => (i, s)
    | none =>
        (s.nextIno,
         { s with pathIno := some s.nextIno, nextIno := s.nextIno + 1 })
  match s₁.holders.lookup ino with
  | none =>
      ({ s₁ with holders := (ino, pid) :: s₁.holders }, .acquired)
  | some _ =>
      -- lockf fails with EAGAIN/EACCES; graceful_exit(errno) unlinks the
      -- path and closes a descriptor carrying no lock, then exits.
      ({ s₁ with pathIno := none }, .contended)

/-- Run a sequence of invocations to completion in arrival order (a valid
schedule of concurrent invocations: each invocation's lock phase is a block
of atomic steps, and no acquirer releases during the experiment — each
acquirer's wrapped command is still running). -/
def runSeq (s : LockSys) : List Nat → LockSys × List InvOutcome
  | [] => (s, [])
  | p :: rest =>
    let r := invoke s p
    let r' := runSeq r.1 rest
    (r'.1, r.2 :: r'.2)

/-- The initial state: the lock identity path does not exist and no lock is
held. -/
def initSys : LockSys := ⟨0, none, []⟩

/-- A concrete environment builder used to instantiate the theorems below:
both candidate lock directories exist, `sigaction` succeeds, and the remaining
outcomes are the arguments. -/
def mkEnv (argv : List String) (cr : CreatRes) (lk : LockfRes) (fk : ForkRes)
    (ex : ExecRes) (wt : WaitRes) : Env :=
  { argv := argv, statRes := fun _ => .ok true, sigactionRes := fun _ => none,
    creatRes := cr, lockfRes := lk, forkRes := fk, execRes := ex,
    waitRes := wt }

/-- The 4080-character command name used to overflow `PATH_MAX`. -/
def longName : String := String.mk (List.replicate 4080 'a')

/-- The truncated path the program actually uses in the overflow case. -/
def truncatedPath : String :=
  cTruncate (PATH_MAX - 1) ("/var/lock" ++ "/solo-lock-" ++ longName)

/-- Environment of the overflow run: `solo <longName>` with all later system
calls succeeding. -/
def envTooLong : Env :=
  mkEnv ["solo", longName] (.ok 3) .ok .parent .ok (.ok 0)

/-! ### Helper lemmas: unlink-before-close ordering in event traces -/

/-- A trace without unlink events trivially orders any unlink before any
close (there is no unlink to violate it). -/
theorem ubc_no_unlink {es : List Event} (h : ∀ q, Event.unlink q ∉ es)
    {i j : Nat} {f : Int} {p : String}
    (hc : es[i]? = some (Event.close f))
    (hu : es[j]? = some (Event.unlink p)) : j < i :=
  absurd (List.getElem?_mem hu) (h p)

/-- In the two-event release suffix `[unlink, close]`, the unlink index is
strictly below the close index. -/
theorem ubc_pair {p : String} {f' : Int} :
    ∀ (i j : Nat) (f : Int) (q : String),
      [Event.unlink p, Event.close f'][i]? = some (Event.close f) →
      [Event.unlink p, Event.close f'][j]? = some (Event.unlink q) → j < i := by
  intro i j f q hc hu
  rcases i with _ | _ | i
  · simp at hc
  · rcases j with _ | _ | j
    · omega
    · simp at hu
    · simp at hu
  · simp at hc

/-- A release suffix `[unlink]` (no descriptor was open) contains no close
at all. -/
theorem ubc_single {p : String} :
    ∀ (i j : Nat) (f : Int) (q : String),
      [Event.unlink p][i]? = some (Event.close f) →
      [Event.unlink p][j]? = some (Event.unlink q) → j < i := by
  intro i j f q hc _
  rcases i with _ | i
  · simp at hc
  · simp at hc

/-- Prepending an event that is neither a close nor an unlink preserves the
unlink-before-close ordering. -/
theorem ubc_cons {x : Event} {es : List Event}
    (hx1 : ∀ f, x ≠ Event.close f) (hx2 : ∀ q, x ≠ Event.unlink q)
    (h : ∀ (i j : Nat) (f : Int) (p : String),
      es[i]? = some (Event.close f) → es[j]? = some (Event.unlink p) → j < i) :
    ∀ (i j : Nat) (f : Int) (p : String),
      (x :: es)[i]? = some (Event.close f) →
      (x :: es)[j]? = some (Event.unlink p) → j < i := by
  intro i j f p hc hu
  rcases i with _ | i
  · simp at hc
    exact absurd hc (hx1 f)
  · rcases j with _ | j
    · simp at hu
      exact absurd hu (hx2 p)
    · simp at hc hu
      exact Nat.succ_lt_succ (h i j f p hc hu)

/-! ### Claim theorems -/

/-- C2: In every exit path that performs release (normal success, every
error path after the lock path is recorded, and signal-triggered cleanup),
the unlink of the lock identity path strictly precedes the close of the lock
file descriptor; release never closes the handle before attempting the
unlink.  Formalised: in the event trace of any run of `main`, and in the
trace of the signal handler's cleanup, any close event occurs at a strictly
larger index than any unlink event.  (The only trace with a close but no
unlink is the child's pre-exec close, which is not a release.) -/
theorem solo_unlink_precedes_close :
    (∀ (env : Env) (i j : Nat) (f : Int) (p : String),
       (soloMain env).events[i]? = some (Event.close f) →
       (soloMain env).events[j]? = some (Event.unlink p) → j < i) ∧
    (∀ (lf : Option String) (fd : Option Int) (i j : Nat) (f : Int)
       (p : String),
       (signal_handler lf fd).events[i]? = some (Event.close f) →
       (signal_handler lf fd).events[j]? = some (Event.unlink p) → j < i) := by
  constructor
  · intro env i j f p hc hu
    revert i j f p
    rcases hres : resolveIdentity env.statRes env.argv with _ | _ | arg | ⟨lf, cs, tl⟩
    · simp only [soloMain, hres]
      intro i j f p hc hu
      exact ubc_no_unlink (by simp) hc hu
    · simp only [soloMain, hres]
      intro i j f p hc hu
      exact ubc_no_unlink (by simp) hc hu
    · simp only [soloMain, hres]
      intro i j f p hc hu
      exact ubc_no_unlink (by simp) hc hu
    · rcases hsig : install_signal_handlers env.sigactionRes with _ | e
      · rcases hcr : env.creatRes with e₁ | fd
        · -- creat failed: trace ends with [unlink lf]
          cases tl <;>
            simp only [soloMain, hres, hsig, hcr, gracefulExitEvents,
              List.append_assoc, List.cons_append, List.nil_append, List.append_nil,
              ite_true, ite_false] <;>
            repeat
              first
              | exact ubc_pair
              | exact ubc_single
              | (refine ubc_cons ?_ ?_ ?_
                 · simp
                 · simp)
              | (refine ubc_cons ?_ ?_ ?_
                 · split <;> simp
                 · split <;> simp)
        · rcases hlk : env.lockfRes with e₂ | _
          · -- lockf failed: trace ends with [unlink lf, close fd]
            cases tl <;>
              simp only [soloMain, hres, hsig, hcr, hlk, gracefulExitEvents,
                List.append_assoc, List.cons_append, List.nil_append, List.append_nil,
                ite_true, ite_false] <;>
              repeat
              first
              | exact ubc_pair
              | exact ubc_single
              | (refine ubc_cons ?_ ?_ ?_
                 · simp
                 · simp)
              | (refine ubc_cons ?_ ?_ ?_
                 · split <;> simp
                 · split <;> simp)
          · rcases hfk : env.forkRes with e₃ | _ | _
            · -- fork failed
              cases tl <;>
                simp only [soloMain, hres, hsig, hcr, hlk, hfk, gracefulExitEvents,
                  List.append_assoc, List.cons_append, List.nil_append, List.append_nil,
                  ite_true, ite_false] <;>
                repeat
              first
              | exact ubc_pair
              | exact ubc_single
              | (refine ubc_cons ?_ ?_ ?_
                 · simp
                 · simp)
              | (refine ubc_cons ?_ ?_ ?_
                 · split <;> simp
                 · split <;> simp)
            · -- child: close without unlink, then exec
              rcases hex : env.execRes with e₄ | _ <;>
                cases tl <;>
                simp only [soloMain, hres, hsig, hcr, hlk, hfk, hex,
                  List.append_assoc, List.cons_append, List.nil_append, List.append_nil,
                  ite_true, ite_false] <;>
                intro i j f p hc hu <;>
                exact ubc_no_unlink (by simp) hc hu
            · -- parent
              rcases hwt : env.waitRes with e₅ | s <;>
                cases tl <;>
                simp only [soloMain, hres, hsig, hcr, hlk, hfk, hwt, gracefulExitEvents,
                  List.append_assoc, List.cons_append, List.nil_append, List.append_nil,
                  ite_true, ite_false] <;>
                repeat
              first
              | exact ubc_pair
              | exact ubc_single
              | (refine ubc_cons ?_ ?_ ?_
                 · simp
                 · simp)
              | (refine ubc_cons ?_ ?_ ?_
                 · split <;> simp
                 · split <;> simp)
      · -- sigaction failed: only diagnostics, no release
        cases tl <;>
          simp only [soloMain, hres, hsig, List.cons_append, List.nil_append,
            ite_true, ite_false] <;>
          intro i j f p hc hu <;>
          exact ubc_no_unlink (by simp) hc hu
  · intro lf fd
    rcases lf with _ | p' <;> rcases fd with _ | f' <;>
      simp only [signal_handler, graceful_exit, gracefulExitEvents,
        List.nil_append, List.cons_append, List.append_nil] <;>
      first
      | exact ubc_pair
      | exact ubc_single
      | (intro i j f p hc hu
         exact ubc_no_unlink (by simp) hc hu)

/-- Closed instance of `solo_unlink_precedes_close`: in the concrete
successful run `solo -l /x c`, the unlink (index 2) precedes the close
(index 3). -/
theorem solo_unlink_precedes_close_witness :
    (soloMain (mkEnv ["solo", "-l", "/x", "c"] (.ok 3) .ok .parent .ok
        (.ok 0))).events[3]? = some (Event.close 3) ∧
    (soloMain (mkEnv ["solo", "-l", "/x", "c"] (.ok 3) .ok .parent .ok
        (.ok 0))).events[2]? = some (Event.unlink "/x") ∧
    2 < 3 :=
  ⟨by decide, by decide,
   solo_unlink_precedes_close.1
     (mkEnv ["solo", "-l", "/x", "c"] (.ok 3) .ok .parent .ok (.ok 0))
     3 2 3 "/x" (by decide) (by decide)⟩

/-- C3: when the non-blocking lock attempt fails with `EACCES` or `EAGAIN`
the program prints the distinct contention message "Another instance is
already running"; for any other locking failure it prints a generic
`perror` string instead; in both cases it releases (unlink and close appear
in the trace) and exits with the raw OS error code. -/
theorem lockf_failure_taxonomy (env : Env) (lf : String) (cs : Nat) (tl : Bool)
    (fd : Int) (e : Nat)
    (hres : resolveIdentity env.statRes env.argv = .ok lf cs tl)
    (hsig : install_signal_handlers env.sigactionRes = none)
    (hcr : env.creatRes = .ok fd)
    (hlk : env.lockfRes = .err e) :
    (soloMain env).exit = some e ∧
    (e = EACCES ∨ e = EAGAIN →
        Event.msg contentionMsg ∈ (soloMain env).events ∧
        ∀ e', Event.perrorMsg "cannot take lock" e' ∉ (soloMain env).events) ∧
    (¬(e = EACCES ∨ e = EAGAIN) →
        Event.perrorMsg "cannot take lock" e ∈ (soloMain env).events ∧
        Event.msg contentionMsg ∉ (soloMain env).events) ∧
    Event.unlink lf ∈ (soloMain env).events ∧
    Event.close fd ∈ (soloMain env).events := by
  by_cases he : e = EACCES ∨ e = EAGAIN
  · cases tl <;>
      simp only [soloMain, hres, hsig, hcr, hlk, gracefulExitEvents, if_pos he,
        ite_true, ite_false, List.append_assoc, List.cons_append,
        List.nil_append, List.append_nil] <;>
      refine ⟨by simp, fun h => ?_, fun h => ?_, by simp, by simp⟩ <;>
      simp_all [tooLongMsg, contentionMsg]
  · cases tl <;>
      simp only [soloMain, hres, hsig, hcr, hlk, gracefulExitEvents, if_neg he,
        ite_true, ite_false, List.append_assoc, List.cons_append,
        List.nil_append, List.append_nil] <;>
      refine ⟨by simp, fun h => ?_, fun h => ?_, by simp, by simp⟩ <;>
      simp_all [tooLongMsg, contentionMsg]

/-- Closed instance of `lockf_failure_taxonomy` at `errno = EAGAIN`: the
contention message is printed and the run exits with `EAGAIN`. -/
theorem lockf_failure_taxonomy_witness :
    (soloMain (mkEnv ["solo", "-l", "/x", "c"] (.ok 3) (.err EAGAIN) .parent
        .ok (.ok 0))).exit = some EAGAIN ∧
    Event.msg contentionMsg ∈
      (soloMain (mkEnv ["solo", "-l", "/x", "c"] (.ok 3) (.err EAGAIN)
          .parent .ok (.ok 0))).events :=
  have h := lockf_failure_taxonomy
    (mkEnv ["solo", "-l", "/x", "c"] (.ok 3) (.err EAGAIN) .parent .ok
      (.ok 0))
    "/x" 3 false 3 EAGAIN (by decide) (by decide) (by decide) (by decide)
  ⟨h.1, (h.2.1 (Or.inr rfl)).1⟩

/-- C4: whenever the parent's `waitpid` returns successfully, the parent
releases (unlink and close appear in the trace) and exits with status 0,
for every possible exit status `s` of the child: the child's status never
reaches the wrapper's exit code. -/
theorem parent_wait_success_exits_zero (env : Env) (lf : String) (cs : Nat)
    (tl : Bool) (fd : Int) (s : Nat)
    (hres : resolveIdentity env.statRes env.argv = .ok lf cs tl)
    (hsig : install_signal_handlers env.sigactionRes = none)
    (hcr : env.creatRes = .ok fd)
    (hlk : env.lockfRes = .ok)
    (hfk : env.forkRes = .parent)
    (hwt : env.waitRes = .ok s) :
    (soloMain env).exit = some 0 ∧
    Event.unlink lf ∈ (soloMain env).events ∧
    Event.close fd ∈ (soloMain env).events := by
  cases tl <;>
    simp only [soloMain, hres, hsig, hcr, hlk, hfk, hwt, gracefulExitEvents,
      ite_true, ite_false, List.append_assoc, List.cons_append,
      List.nil_append, List.append_nil] <;>
    refine ⟨by simp, by simp, by simp⟩

/-- Closed instance of `parent_wait_success_exits_zero`: a child exit status
of 77 still yields wrapper exit 0. -/
theorem parent_wait_success_exits_zero_witness :
    (soloMain (mkEnv ["solo", "-l", "/x", "c"] (.ok 3) .ok .parent .ok
        (.ok 77))).exit = some 0 :=
  (parent_wait_success_exits_zero
    (mkEnv ["solo", "-l", "/x", "c"] (.ok 3) .ok .parent .ok (.ok 77))
    "/x" 3 false 3 77 (by decide) (by decide) (by decide) (by decide)
    (by decide) (by decide)).1

/-- C7: with `-l`/`--lockfile` in the first argument position, the lock
identity is the LOCKFILE argument verbatim, with command start 3 and no
truncation, independent of the `stat` oracle (so no directory search runs)
and of the wrapped command; and when the first argument is not the flag,
the identity outcome ignores every later argument, so a later `-l` belongs
to the wrapped command. -/
theorem explicit_lockfile_verbatim :
    (∀ (stat stat' : String → StatRes) (lf : String) (rest : List String),
       resolveIdentity stat ("solo" :: "-l" :: lf :: rest) = .ok lf 3 false ∧
       resolveIdentity stat ("solo" :: "--lockfile" :: lf :: rest) =
         .ok lf 3 false ∧
       resolveIdentity stat ("solo" :: "-l" :: lf :: rest) =
         resolveIdentity stat' ("solo" :: "-l" :: lf :: rest) ∧
       resolveIdentity stat ("solo" :: "--lockfile" :: lf :: rest) =
         resolveIdentity stat' ("solo" :: "--lockfile" :: lf :: rest)) ∧
    (∀ (stat : String → StatRes) (cmd : String) (rest₁ rest₂ : List String),
       cmd ≠ "-l" → cmd ≠ "--lockfile" →
       resolveIdentity stat ("solo" :: cmd :: rest₁) =
         resolveIdentity stat ("solo" :: cmd :: rest₂)) := by
  constructor
  · intro stat stat' lf rest
    have e1 : ¬(rest.length + 1 + 1 + 1 < 2) := by omega
    have e2 : ¬(rest.length + 1 + 1 + 1 < 3) := by omega
    refine ⟨?_, ?_, ?_, ?_⟩ <;> simp [resolveIdentity, e1, e2]
  · intro stat cmd rest₁ rest₂ h1 h2
    have e1 : ¬(rest₁.length + 1 + 1 < 2) := by omega
    have e2 : ¬(rest₂.length + 1 + 1 < 2) := by omega
    simp [resolveIdentity, h1, h2, e1, e2]

/-- Closed instance of `explicit_lockfile_verbatim`: a later argument
spelled `-l` does not change the identity outcome. -/
theorem explicit_lockfile_verbatim_witness :
    resolveIdentity (fun _ => StatRes.ok true) ["solo", "cmd", "-l"] =
      resolveIdentity (fun _ => StatRes.ok true) ["solo", "cmd", "other"] :=
  explicit_lockfile_verbatim.2 (fun _ => StatRes.ok true) "cmd" ["-l"]
    ["other"] (by decide) (by decide)

/-- C8: with a resolved lock directory `D` and a command whose basename is
nonempty, the auto-derived identity is exactly `D/solo-lock-<basename>`
(when it fits `PATH_MAX`); and when the basename is empty, the run fails
with the invalid-command-name diagnostic and exit 1 before any lock file is
created (the trace holds only the diagnostic). -/
theorem derived_identity :
    (∀ (stat : String → StatRes) (cmd : String) (rest : List String)
       (D : String),
       cmd ≠ "-l" → cmd ≠ "--lockfile" →
       get_lockdir stat = some D → gnuBasename cmd ≠ "" →
       (D ++ "/solo-lock-" ++ gnuBasename cmd).length < PATH_MAX →
       resolveIdentity stat ("solo" :: cmd :: rest) =
         .ok (D ++ "/solo-lock-" ++ gnuBasename cmd) 1 false) ∧
    (∀ (env : Env) (cmd : String) (rest : List String) (D : String),
       env.argv = "solo" :: cmd :: rest →
       cmd ≠ "-l" → cmd ≠ "--lockfile" →
       get_lockdir env.statRes = some D → gnuBasename cmd = "" →
       resolveIdentity env.statRes env.argv = .invalidName cmd ∧
       (soloMain env).events = [Event.msg ("Invalid program name " ++ cmd)] ∧
       (soloMain env).exit = some 1) := by
  constructor
  · intro stat cmd rest D h1 h2 hdir hbn hlen
    have e1 : ¬(rest.length + 1 + 1 < 2) := by omega
    have e2 : ¬(PATH_MAX ≤ D.length + "/solo-lock-".length +
        (gnuBasename cmd).length) := by
      simp only [String.length_append] at hlen
      omega
    simp [resolveIdentity, h1, h2, hdir, hbn, e1, e2]
  · intro env cmd rest D hargv h1 h2 hdir hbn
    have hres : resolveIdentity env.statRes env.argv = .invalidName cmd := by
      rw [hargv]
      have e1 : ¬(rest.length + 1 + 1 < 2) := by omega
      simp [resolveIdentity, h1, h2, hdir, hbn, e1]
    exact ⟨hres, by simp [soloMain, hres], by simp [soloMain, hres]⟩

/-- Closed instance of `derived_identity`: `solo /usr/bin/foo` derives the
identity `/var/lock/solo-lock-foo`. -/
theorem derived_identity_witness :
    resolveIdentity (fun _ => StatRes.ok true) ["solo", "/usr/bin/foo"] =
      .ok ("/var/lock" ++ "/solo-lock-" ++ gnuBasename "/usr/bin/foo") 1
        false :=
  derived_identity.1 (fun _ => StatRes.ok true) "/usr/bin/foo" [] "/var/lock"
    (by decide) (by decide) (by decide) (by decide) (by decide)

/-- C6 counterexample: the claim says the `"."` fallback of `get_lockdir` is
never returned, but when both candidates stat successfully as
non-directories the loop completes and returns `"."`. -/
theorem get_lockdir_fallback_reachable :
    get_lockdir (fun _ => .ok false) = some "." := by decide

/-- C6 (amended): `get_lockdir` stops at the first candidate confirmed to be
a directory and fails immediately on the first probe error, but the final
`"."` fallback is reachable: it is returned exactly when every candidate
probes successfully and none is a directory. -/
theorem get_lockdir_characterization (stat : String → StatRes) :
    (∀ e, stat "/var/lock" = .err e → get_lockdir stat = none) ∧
    (stat "/var/lock" = .ok true → get_lockdir stat = some "/var/lock") ∧
    (stat "/var/lock" = .ok false →
       ∀ e, stat "/tmp" = .err e → get_lockdir stat = none) ∧
    (stat "/var/lock" = .ok false → stat "/tmp" = .ok true →
       get_lockdir stat = some "/tmp") ∧
    (get_lockdir stat = some "." ↔
       stat "/var/lock" = .ok false ∧ stat "/tmp" = .ok false) := by
  rcases h1 : stat "/var/lock" with e1 | b1
  · simp_all [get_lockdir, get_lockdirLoop, lockdirPaths]
  · cases b1
    · rcases h2 : stat "/tmp" with e2 | b2
      · simp_all [get_lockdir, get_lockdirLoop, lockdirPaths]
      · cases b2 <;> simp_all [get_lockdir, get_lockdirLoop, lockdirPaths]
    · simp_all [get_lockdir, get_lockdirLoop, lockdirPaths]

/-- Closed instance of `get_lockdir_characterization`: `/var/lock` existing
as a non-directory falls through to `/tmp`. -/
theorem get_lockdir_characterization_witness :
    get_lockdir (fun p => if p = "/var/lock" then StatRes.ok false
      else StatRes.ok true) = some "/tmp" :=
  (get_lockdir_characterization
    (fun p => if p = "/var/lock" then StatRes.ok false
      else StatRes.ok true)).2.2.2.1 (by decide) (by decide)

/-- C9: handlers are installed for exactly the hangup (1), interrupt (2) and
termination (15) signals, every handler is the same `graceful_exit` release
routine used by synchronous exit, and on delivery it unlinks then closes
and terminates with the fixed failure status 1. -/
theorem signal_handlers_release_and_exit_one :
    handledSignals = [1, 2, 15] ∧
    (∀ lf fd, signal_handler lf fd = graceful_exit lf fd 1) ∧
    (∀ p f, (signal_handler (some p) (some f)).events =
        [Event.unlink p, Event.close f] ∧
      (signal_handler (some p) (some f)).exit = some 1) :=
  ⟨rfl, fun _ _ => rfl, fun _ _ => ⟨rfl, rfl⟩⟩

/-- C1 (violated by the code): run three invocations of the same lock
identity to completion in arrival order while the first invocation's wrapped
command is still running.  The first acquires; the second observes
contention and — through `graceful_exit` — unlinks the winner's lock path;
the third then `creat`s a fresh inode at the path and acquires a lock on it.
Two of the three concurrent invocations acquire, contradicting the claimed
"exactly one" (which does hold for the two-invocation schedule). -/
theorem third_invocation_acquires_after_loser_unlink :
    (runSeq initSys [1, 2, 3]).2 = [.acquired, .contended, .acquired] ∧
    ((runSeq initSys [1, 2, 3]).2.count .acquired = 2 ∧
      ¬ (runSeq initSys [1, 2, 3]).2.count .acquired = 1) ∧
    (runSeq initSys [1, 2]).2.count .acquired = 1 := by decide

/-- C10: `solo -l LOCKFILE` with no COMMAND (three arguments) is not a usage
error: the flag branch only checks for a third argument, so the program
creates and locks LOCKFILE, forks, and the child calls `execvp` with the
null program pointer one past the end of `argv` (modelled `none`) and an
empty argument vector. -/
theorem flag_without_command_execs_null (env : Env) (X : String) (fd : Int)
    (hargv : env.argv = ["solo", "-l", X])
    (hsig : install_signal_handlers env.sigactionRes = none)
    (hcr : env.creatRes = .ok fd)
    (hlk : env.lockfRes = .ok)
    (hfk : env.forkRes = .child)
    (hex : env.execRes = .ok) :
    resolveIdentity env.statRes env.argv = .ok X 3 false ∧
    (soloMain env).events =
      [Event.creatEv X, Event.lockfEv fd, Event.close fd,
       Event.execEv none []] ∧
    (soloMain env).exit = none := by
  have hres' : resolveIdentity env.statRes ["solo", "-l", X] =
      .ok X 3 false := by
    simp [resolveIdentity]
  refine ⟨by rw [hargv]; exact hres', ?_, ?_⟩ <;>
    simp [soloMain, hargv, hres', hsig, hcr, hlk, hfk, hex]

/-- Closed instance of `flag_without_command_execs_null` at
`solo -l /x`. -/
theorem flag_without_command_execs_null_witness :
    (soloMain (mkEnv ["solo", "-l", "/x"] (.ok 3) .ok .child .ok
        (.ok 0))).events =
      [Event.creatEv "/x", Event.lockfEv 3, Event.close 3,
       Event.execEv none []] :=
  (flag_without_command_execs_null
    (mkEnv ["solo", "-l", "/x"] (.ok 3) .ok .child .ok (.ok 0)) "/x" 3
    (by decide) (by decide) (by decide) (by decide) (by decide)
    (by decide)).2.1

/-- `takeWhile` keeps a whole replicate block whose element satisfies the
(non-slash) predicate. -/
theorem takeWhile_ne_slash_replicate (n : Nat) :
    List.takeWhile (fun c => c != '/') (List.replicate n 'a') =
      List.replicate n 'a' := by
  induction n with
  | zero => simp
  | succ n ih => simp [List.replicate_succ, List.takeWhile_cons, ih]

/-- `longName` contains no slash, so it is its own basename. -/
theorem gnuBasename_longName : gnuBasename longName = longName := by
  rw [gnuBasename, longName]
  simp only [List.reverse_replicate, takeWhile_ne_slash_replicate]

theorem longName_length : longName.length = 4080 := by
  rw [longName, String.length_mk, List.length_replicate]

/-- `resolveIdentity` on the overlong command name: the snprintf result
(4100) exceeds `PATH_MAX`, the too-long diagnostic is flagged, and the
identity is the truncated path — resolution does not fail. -/
theorem longName_resolves_truncated :
    resolveIdentity (fun _ => .ok true) ["solo", longName] =
      .ok (cTruncate (PATH_MAX - 1) ("/var/lock" ++ "/solo-lock-" ++ longName))
        1 true := by
  have hne : longName ≠ "" := by decide
  have h1 : longName ≠ "-l" := by decide
  have h2 : longName ≠ "--lockfile" := by decide
  have hdir : get_lockdir (fun _ : String => StatRes.ok true) =
      some "/var/lock" := by decide
  have e2 : PATH_MAX ≤ "/var/lock/solo-lock-".length + longName.length := by
    have l1 : "/var/lock/solo-lock-".length = 20 := by decide
    have hp : PATH_MAX = 4096 := rfl
    have l2 := longName_length
    omega
  simp [resolveIdentity, h1, h2, hdir, gnuBasename_longName, hne, e2]

theorem full_path_length :
    ("/var/lock" ++ "/solo-lock-" ++ longName).length = 4100 := by
  simp only [String.length_append, longName_length]
  rfl

theorem truncatedPath_length : truncatedPath.length = PATH_MAX - 1 := by
  have hdata : ("/var/lock" ++ "/solo-lock-" ++ longName).data.length = 4100 :=
    full_path_length
  rw [truncatedPath, cTruncate, String.length_mk, List.length_take, hdata]
  decide

/-- C5 (violated by the code): when the derived path overflows `PATH_MAX`
the program prints the too-long diagnostic but does not fail — it proceeds
to `creat` and `lockf` the truncated path (strictly shorter than and
different from the full path) and, with all later calls succeeding, exits
0.  The claim says resolution fails with `PathTooLong` and no file is
created at a truncated path. -/
theorem too_long_path_not_rejected :
    resolveIdentity envTooLong.statRes envTooLong.argv =
      .ok truncatedPath 1 true ∧
    truncatedPath ≠ "/var/lock" ++ "/solo-lock-" ++ longName ∧
    truncatedPath.length = PATH_MAX - 1 ∧
    (soloMain envTooLong).events =
      [Event.msg tooLongMsg, Event.creatEv truncatedPath,
       Event.lockfEv 3, Event.unlink truncatedPath, Event.close 3] ∧
    (soloMain envTooLong).exit = some 0 := by
  have hres : resolveIdentity (fun _ : String => StatRes.ok true)
      ["solo", longName] = .ok truncatedPath 1 true :=
    longName_resolves_truncated
  have hneq : truncatedPath ≠ "/var/lock" ++ "/solo-lock-" ++ longName := by
    intro h
    have := congrArg String.length h
    rw [truncatedPath_length, full_path_length] at this
    exact absurd this (by decide)
  refine ⟨hres, hneq, truncatedPath_length, ?_, ?_⟩ <;>
    simp [soloMain, hres, envTooLong, mkEnv, gracefulExitEvents,
      install_signal_handlers, installLoop, handledSignals]

end Solo
